import Mathlib

/-!
Verification of the MultiDriver_Hub frontend scheduler logic.

The definitions below are shallow embeddings of the Python code in
`src/frontend/src/ui/main_window.py`, `src/frontend/src/ui/search_results.py`,
`src/frontend/src/ui/upload_dialog.py` and
`src/frontend/src/services/api_client.py`.  Machine integers are modelled as
`Nat` (no overflow is relevant at these magnitudes), Python floats in the
byte-size formatters as `Rat`, and fallible calls as explicit outcome values.
-/

/- ===================================================================
   Health monitor: `MainWindow.check_backend_health`
   (src/frontend/src/ui/main_window.py, lines 697-717)

   Relevant mutable attributes of `MainWindow`:
     * `backend_connected`        (set via `set_backend_status`)
     * `health_check_failures`    (consecutive failure counter)
     * `health_timer` interval    (started at 300000 ms in `setup_ui`,
                                   line 125: `self.health_timer.start(300000)`)
     * `max_health_check_interval = 900000` (line 38)
   =================================================================== -/

/-- The state of the health-check loop: `backend_connected`,
`health_check_failures`, and the current `health_timer` interval in ms. -/
structure HealthState where
  connected : Bool
  failures : Nat
  intervalMs : Nat
deriving DecidableEq, Repr

/-- `self.max_health_check_interval = 900000` (main_window.py line 38). -/
def max_health_check_interval : Nat := 900000

/-- `self.health_timer.start(300000)` (main_window.py line 125): the initial
health-timer interval. -/
def health_timer_initial_interval : Nat := 300000

/-- Outcome of one `self.api_client.health_check()` call as observed by
`check_backend_health`: a response with `success` truthy, a response without
it, or an exception escaping the call. -/
inductive CheckOutcome
  | ok
  | bad
  | exn
deriving DecidableEq, Repr

/-- One run of `MainWindow.check_backend_health` (lines 697-717), as a state
transformer.  On `success`: `set_backend_status(True)` and
`health_check_failures = 0` (the timer interval is not touched).  On a
non-success response and on an exception the code is identical:
`health_check_failures += 1` and
`setInterval(min(max_health_check_interval, interval() * 2 ** failures))`
where `failures` is the already-incremented counter. -/
def check_backend_health (s : HealthState) (o : CheckOutcome) : HealthState :=
  match o with
  | .ok => { connected := true, failures := 0, intervalMs := s.intervalMs }
  | .bad =>
      let f := s.failures + 1
      { connected := false, failures := f,
        intervalMs := min max_health_check_interval (s.intervalMs * 2 ^ f) }
  | .exn =>
      let f := s.failures + 1
      { connected := false, failures := f,
        intervalMs := min max_health_check_interval (s.intervalMs * 2 ^ f) }

/-- State at startup: `backend_connected = False` (line 36),
`health_check_failures = 0` (line 37), timer started at 300000 ms. -/
def healthInit : HealthState :=
  { connected := false, failures := 0, intervalMs := health_timer_initial_interval }

/-- Folding a sequence of health-check outcomes through
`check_backend_health`. -/
def healthRun (s : HealthState) (l : List CheckOutcome) : HealthState :=
  l.foldl check_backend_health s

lemma healthRun_append (s : HealthState) (l₁ l₂ : List CheckOutcome) :
    healthRun s (l₁ ++ l₂) = healthRun (healthRun s l₁) l₂ :=
  List.foldl_append _ _ _ _

lemma healthRun_cons (s : HealthState) (o : CheckOutcome) (l : List CheckOutcome) :
    healthRun s (o :: l) = healthRun (check_backend_health s o) l := rfl

/-- Closed form of the failure recurrence from the initial state: the code
multiplies the current timer interval by `2 ^ failures`, and with the code's
constants (300000 initial, 900000 cap) the interval after the `k`-th
consecutive failure equals `min (300000 * 2 ^ k) 900000`. -/
lemma health_fail_run (k : Nat) :
    (healthRun healthInit (List.replicate k CheckOutcome.bad)).failures = k ∧
    (healthRun healthInit (List.replicate k CheckOutcome.bad)).intervalMs
      = min (300000 * 2 ^ k) 900000 := by
  induction k with
  | zero => exact ⟨rfl, by decide⟩
  | succ k ih =>
    obtain ⟨hf, hi⟩ := ih
    rw [List.replicate_succ', healthRun_append]
    constructor
    · show (check_backend_health
          (healthRun healthInit (List.replicate k CheckOutcome.bad)) CheckOutcome.bad).failures
          = k + 1
      simp [check_backend_health, hf]
    · show min max_health_check_interval
        ((healthRun healthInit (List.replicate k CheckOutcome.bad)).intervalMs
          * 2 ^ ((healthRun healthInit (List.replicate k CheckOutcome.bad)).failures + 1))
        = min (300000 * 2 ^ (k + 1)) 900000
      rw [hf, hi]
      match k with
      | 0 => decide
      | k + 1 =>
        have h1 : (900000 : Nat) ≤ 300000 * 2 ^ (k + 1 + 1) := by
          have : (2 : Nat) ^ 2 ≤ 2 ^ (k + 1 + 1) :=
            Nat.pow_le_pow_right (by norm_num) (by omega)
          calc (900000 : Nat) ≤ 300000 * 2 ^ 2 := by norm_num
            _ ≤ 300000 * 2 ^ (k + 1 + 1) := Nat.mul_le_mul_left _ this
        have h2 : min (300000 * 2 ^ (k + 1)) 900000 ≥ 600000 := by
          refine le_min ?_ (by norm_num)
          have : (2 : Nat) ^ 1 ≤ 2 ^ (k + 1) :=
            Nat.pow_le_pow_right (by norm_num) (by omega)
          calc (600000 : Nat) = 300000 * 2 ^ 1 := by norm_num
            _ ≤ 300000 * 2 ^ (k + 1) := Nat.mul_le_mul_left _ this
        have h3 : (900000 : Nat) ≤
            min (300000 * 2 ^ (k + 1)) 900000 * 2 ^ (k + 1 + 1) := by
          have : (2 : Nat) ^ 2 ≤ 2 ^ (k + 1 + 1) :=
            Nat.pow_le_pow_right (by norm_num) (by omega)
          calc (900000 : Nat) ≤ 600000 * 2 ^ 2 := by norm_num
            _ ≤ min (300000 * 2 ^ (k + 1)) 900000 * 2 ^ (k + 1 + 1) :=
              Nat.mul_le_mul h2 this
        rw [show max_health_check_interval = 900000 from rfl,
          Nat.min_eq_left h3, Nat.min_eq_right h1]

/-- Claim C1 (counterexample): the claim instantiates the backoff formula with
`BASE = 30000 ms`, predicting a 60000 ms interval after 1 failure and a
240000 ms interval after 3 consecutive failures.  The code's health timer
starts at 300000 ms and multiplies the current interval by `2 ^ failures`, so
after 1 failure the interval is 600000 ms (not 60000) and after 3 consecutive
failures it is 900000 ms (not 240000). -/
theorem C1_backoff_counterexample :
    (healthRun healthInit (List.replicate 1 CheckOutcome.bad)).intervalMs = 600000 ∧
    (healthRun healthInit (List.replicate 3 CheckOutcome.bad)).intervalMs = 900000 ∧
    (600000 : Nat) ≠ 60000 ∧ (900000 : Nat) ≠ 240000 := by
  refine ⟨by decide, by decide, by decide, by decide⟩

/-- Claim C1 (amended): for every run of exactly `k` consecutive failed health
checks with no intervening success, starting from the initial state, the
recheck interval set after the `k`-th failure equals
`min (BASE * 2 ^ k) MAX` where `BASE = 300000 ms` is the health timer's
initial interval (not 30000 ms) and `MAX = 900000 ms`: 600 s after 1 failure,
and capped at 900 s from the 2nd consecutive failure onward (the code scales
the current timer interval by `2 ^ failures`, which with these constants
coincides with `min (300000 * 2 ^ k) 900000`). -/
theorem C1_backoff_amended (k : Nat) :
    (healthRun healthInit (List.replicate k CheckOutcome.bad)).intervalMs
      = min (300000 * 2 ^ k) 900000 :=
  (health_fail_run k).2

/-- Claim C2 (counterexample): after one failure (interval 600000 ms) a single
successful health check resets `health_check_failures` to 0 but leaves the
recheck interval at 600000 ms; it is not reset to the base interval
(300000 ms, nor the claimed 30000 ms base). -/
theorem C2_success_reset_counterexample :
    (healthRun healthInit [CheckOutcome.bad, CheckOutcome.ok]).failures = 0 ∧
    (healthRun healthInit [CheckOutcome.bad, CheckOutcome.ok]).intervalMs = 600000 ∧
    (600000 : Nat) ≠ 300000 ∧ (600000 : Nat) ≠ 30000 := by
  refine ⟨by decide, by decide, by decide, by decide⟩

/-- Claim C2 (amended): for every sequence of health-check outcomes ending in
one success, the final successful check sets `backend_connected = true` and
resets `health_check_failures` to 0, regardless of how many failures preceded
it — but it leaves the recheck interval unchanged at its current
(possibly backed-off) value; the interval is never reset to the base. -/
theorem C2_success_reset_amended (s : HealthState) (l : List CheckOutcome) :
    (healthRun s (l ++ [CheckOutcome.ok])).connected = true ∧
    (healthRun s (l ++ [CheckOutcome.ok])).failures = 0 ∧
    (healthRun s (l ++ [CheckOutcome.ok])).intervalMs = (healthRun s l).intervalMs := by
  rw [healthRun_append]
  exact ⟨rfl, rfl, rfl⟩

lemma health_step_bounds (s : HealthState) (o : CheckOutcome)
    (h1 : 300000 ≤ s.intervalMs) (h2 : s.intervalMs ≤ 900000) :
    300000 ≤ (check_backend_health s o).intervalMs ∧
    (check_backend_health s o).intervalMs ≤ 900000 ∧
    s.intervalMs ≤ (check_backend_health s o).intervalMs := by
  cases o with
  | ok => exact ⟨h1, h2, le_refl _⟩
  | bad =>
      refine ⟨le_min (by norm_num [max_health_check_interval]) ?_, min_le_left _ _,
        le_min h2 ?_⟩
      · exact le_trans h1 (Nat.le_mul_of_pos_right _ (Nat.pos_pow_of_pos _ (by norm_num)))
      · exact Nat.le_mul_of_pos_right _ (Nat.pos_pow_of_pos _ (by norm_num))
  | exn =>
      refine ⟨le_min (by norm_num [max_health_check_interval]) ?_, min_le_left _ _,
        le_min h2 ?_⟩
      · exact le_trans h1 (Nat.le_mul_of_pos_right _ (Nat.pos_pow_of_pos _ (by norm_num)))
      · exact Nat.le_mul_of_pos_right _ (Nat.pos_pow_of_pos _ (by norm_num))

lemma health_run_bounds :
    ∀ (l : List CheckOutcome) (s : HealthState),
      300000 ≤ s.intervalMs → s.intervalMs ≤ 900000 →
      300000 ≤ (healthRun s l).intervalMs ∧ (healthRun s l).intervalMs ≤ 900000 := by
  intro l
  induction l with
  | nil => intro s h1 h2; exact ⟨h1, h2⟩
  | cons o rest ih =>
      intro s h1 h2
      rw [healthRun_cons]
      obtain ⟨b1, b2, _⟩ := health_step_bounds s o h1 h2
      exact ih _ b1 b2

/-- Claim C7: for every sequence of health-check outcomes, the recheck
interval stays within `[300000, 900000]` (the initial timer interval and
`max_health_check_interval`), it never decreases at any step, and a
successful check leaves it unchanged — so it increases only on failure. -/
theorem C7_interval_invariant (l : List CheckOutcome) :
    300000 ≤ (healthRun healthInit l).intervalMs ∧
    (healthRun healthInit l).intervalMs ≤ 900000 ∧
    (∀ o : CheckOutcome, (healthRun healthInit l).intervalMs ≤
      (check_backend_health (healthRun healthInit l) o).intervalMs) ∧
    (check_backend_health (healthRun healthInit l) CheckOutcome.ok).intervalMs
      = (healthRun healthInit l).intervalMs := by
  obtain ⟨h1, h2⟩ := health_run_bounds l healthInit (by decide) (by decide)
  exact ⟨h1, h2, fun o => (health_step_bounds _ o h1 h2).2.2, rfl⟩

/- ===================================================================
   Upload worker: `UploadWorker.run` / `UploadWorker.cancel`
   (src/frontend/src/ui/upload_dialog.py, lines 31-70)

   `run` iterates over `self.file_paths`; at the top of each iteration it
   checks `self.is_cancelled` and `break`s out of the loop if set (the
   remaining files are never uploaded).  Each file's upload is wrapped in
   its own try/except: a successful result increments `completed` and
   emits `upload_completed`; a non-success result or an exception emits
   `upload_error` and the loop continues with the next file.
   `cancel` (lines 68-70) only sets `self.is_cancelled = True`; nothing
   interrupts the in-flight `upload_file` call.
   =================================================================== -/

/-- Outcome of one `self.api_client.upload_file(...)` call in
`UploadWorker.run`: result with `success` truthy, result without it, or an
exception raised by the call. -/
inductive UploadOutcome
  | success
  | failureResult
  | exn
deriving DecidableEq, Repr

/-- Terminal classification of a job in a run of `UploadWorker.run`:
`completed` (its `upload_completed` signal fired), `failed` (its
`upload_error` signal fired — both the non-success-result branch and the
per-file `except` branch), or `cancelled` (the loop `break`-ed at the
cancellation check before the job was ever started, so the job was never
uploaded and never in progress). -/
inductive JobResult
  | completed
  | failed
  | cancelled
deriving DecidableEq, Repr

/-- How `UploadWorker.run` classifies a started job from its upload outcome:
success result → completed; non-success result or exception → failed (the
exception is caught by the per-file `except` and reported for that job
only). -/
def classify : UploadOutcome → JobResult
  | .success => .completed
  | .failureResult => .failed
  | .exn => .failed

/-- The loop of `UploadWorker.run`.  `flag k` is the value of
`self.is_cancelled` observed at the top of the `k`-th iteration (the only
place the code reads it — cancellation is cooperative, at job boundaries).
If the flag is set, the loop breaks: that job and all later jobs are never
started (classified `cancelled`); otherwise the job runs to its natural
terminal result and the loop continues. -/
def upload_worker_run_aux (flag : Nat → Bool) : List UploadOutcome → Nat → List JobResult
  | [], _ => []
  | o :: rest, k =>
      if flag k then (o :: rest).map fun _ => JobResult.cancelled
      else classify o :: upload_worker_run_aux flag rest (k + 1)

/-- `UploadWorker.run` over a queue of jobs with a given cancellation-flag
schedule, starting at the first job boundary. -/
def upload_worker_run (flag : Nat → Bool) (outs : List UploadOutcome) : List JobResult :=
  upload_worker_run_aux flag outs 0

/-- Final counts of a run, in the shape of the spec's queue-drained summary. -/
structure UploadSummary where
  completed : Nat
  failed : Nat
  cancelled : Nat
deriving DecidableEq, Repr

/-- Summarise the per-job results of a run. -/
def summarize (rs : List JobResult) : UploadSummary :=
  { completed := rs.countP fun r => r == JobResult.completed,
    failed := rs.countP fun r => r == JobResult.failed,
    cancelled := rs.countP fun r => r == JobResult.cancelled }

lemma upload_run_no_cancel (outs : List UploadOutcome) :
    ∀ k, upload_worker_run_aux (fun _ => false) outs k = outs.map classify := by
  induction outs with
  | nil => intro k; rfl
  | cons o rest ih =>
      intro k
      simp [upload_worker_run_aux, ih (k + 1)]

/-- Claim C4: one job's exception is caught and recorded as failed for that
job only; it never stops the remaining jobs.  With no cancellation every
enqueued job reaches the terminal result of its own outcome, and in the
spec's scenario — 5 jobs where job 3's upload call throws and the others
succeed — jobs 4 and 5 still complete and the final summary is
`{completed := 4, failed := 1, cancelled := 0}`. -/
theorem C4_exception_isolated :
    (∀ outs : List UploadOutcome,
      upload_worker_run (fun _ => false) outs = outs.map classify) ∧
    upload_worker_run (fun _ => false)
        [UploadOutcome.success, UploadOutcome.success, UploadOutcome.exn,
         UploadOutcome.success, UploadOutcome.success]
      = [JobResult.completed, JobResult.completed, JobResult.failed,
         JobResult.completed, JobResult.completed] ∧
    summarize (upload_worker_run (fun _ => false)
        [UploadOutcome.success, UploadOutcome.success, UploadOutcome.exn,
         UploadOutcome.success, UploadOutcome.success])
      = { completed := 4, failed := 1, cancelled := 0 } :=
  ⟨fun outs => upload_run_no_cancel outs 0, by decide, by decide⟩

lemma upload_run_cancel_at (n : Nat) :
    ∀ (outs : List UploadOutcome) (k : Nat),
      upload_worker_run_aux (fun j => decide (n ≤ j)) outs k
        = ((outs.take (n - k)).map classify)
            ++ (outs.drop (n - k)).map fun _ => JobResult.cancelled := by
  intro outs
  induction outs with
  | nil => intro k; simp [upload_worker_run_aux]
  | cons o rest ih =>
      intro k
      by_cases h : n ≤ k
      · have hz : n - k = 0 := by omega
        simp [upload_worker_run_aux, h, hz]
      · have hs : n - k = (n - (k + 1)) + 1 := by omega
        simp only [upload_worker_run_aux, decide_eq_true_eq, if_neg h, hs,
          List.take_succ_cons, List.drop_succ_cons, List.map_cons, List.cons_append,
          ih (k + 1)]

/-- Claim C5: with the cancel flag first observed set at the `n`-th job
boundary (the flag is read only there — the model has no other read site,
mirroring the single `if self.is_cancelled: break` at the top of the loop,
never mid-upload), the first `n` jobs run to their natural terminal results
(in particular the job in progress when the flag was set finishes), and
every job not yet started is cancelled without ever being started or in
progress.  In the spec's scenario — cancel right after job 2 starts, i.e.
the flag is first seen at the third boundary — jobs 1–2 finish normally and
jobs 3–5 are cancelled, never started. -/
theorem C5_cancel_cooperative :
    (∀ (outs : List UploadOutcome) (n : Nat),
      upload_worker_run (fun j => decide (n ≤ j)) outs
        = ((outs.take n).map classify)
            ++ (outs.drop n).map fun _ => JobResult.cancelled) ∧
    upload_worker_run (fun j => decide (2 ≤ j))
        [UploadOutcome.success, UploadOutcome.success, UploadOutcome.success,
         UploadOutcome.success, UploadOutcome.success]
      = [JobResult.completed, JobResult.completed, JobResult.cancelled,
         JobResult.cancelled, JobResult.cancelled] :=
  ⟨fun outs n => by
      have h := upload_run_cancel_at n outs 0
      simpa [upload_worker_run] using h,
   by decide⟩

/- ===================================================================
   API client: `APIClient._make_request`
   (src/frontend/src/services/api_client.py, lines 29-46)

   The transport call `self.session.request(...)` either yields an HTTP
   response or raises (timeout, connection refused, transport error — all
   `requests.exceptions.RequestException`s).  `raise_for_status()` raises
   `HTTPError` (also a `RequestException`) on a 4xx/5xx status; the first
   `except` catches every `RequestException`, the second catches any other
   `Exception` (e.g. a JSON decode failure), and both return
   `{'success': False, 'error': str(e)}`.
   =================================================================== -/

/-- The minimal response shape the scheduler reads: `success` plus an
optional `error` message. -/
structure ApiResult where
  success : Bool
  error : Option String
deriving DecidableEq, Repr

/-- A `requests` exception: timeout, connection refused, an HTTP error
status raised by `raise_for_status`, or another transport error.  A timeout
reaches exactly the same handler as every other member. -/
inductive ReqErr
  | timeout
  | connRefused
  | httpStatus (code : Nat)
  | transport (msg : String)
deriving DecidableEq, Repr

/-- `str(e)` for a `requests` exception (message content abstracted). -/
def errText : ReqErr → String
  | .timeout => "timed out"
  | .connRefused => "connection refused"
  | .httpStatus c => "HTTP error " ++ toString c
  | .transport m => m

/-- The raw transport result of `self.session.request(...)` when it does not
raise: a status code and, if the body parses as JSON, the parsed result. -/
structure HttpResponse where
  status : Nat
  body : Option ApiResult
deriving DecidableEq, Repr

/-- `APIClient._make_request` (api_client.py lines 29-46).  The input is the
outcome of the transport call; the output type `Except ReqErr ApiResult`
makes exception propagation representable — an uncaught exception would be
`.error`.  The transcription: a raised transport exception is caught and
returned as `{'success': False, 'error': str(e)}`; `raise_for_status` turns
a status ≥ 400 into an `HTTPError` caught by the same handler; an unparsable
body (the `response.json()` call raising) is caught by the second handler. -/
def make_request (o : Except ReqErr HttpResponse) : Except ReqErr ApiResult :=
  match o with
  | .error e => .ok { success := false, error := some (errText e) }
  | .ok resp =>
      if 400 ≤ resp.status then
        .ok { success := false, error := some (errText (.httpStatus resp.status)) }
      else
        match resp.body with
        | some j => .ok j
        | none => .ok { success := false, error := some "invalid JSON body" }

/-- Claim C8: no exception propagates out of `_make_request` — for every
transport outcome the call returns a value (never `.error`); every raised
transport failure, timeout included and treated identically, comes back as
`{'success': False, 'error': str(e)}`; and the health monitor absorbs an
exception from the call exactly as it absorbs a failure response
(`check_backend_health`'s `else` and `except` branches are the same state
update), so the failure lands in internal state rather than in the caller. -/
theorem C8_errors_absorbed :
    (∀ o : Except ReqErr HttpResponse, ∃ r : ApiResult, make_request o = .ok r) ∧
    (∀ e : ReqErr,
      make_request (.error e) = .ok { success := false, error := some (errText e) }) ∧
    (∀ s : HealthState,
      check_backend_health s CheckOutcome.exn = check_backend_health s CheckOutcome.bad) := by
  refine ⟨?_, fun e => rfl, fun s => rfl⟩
  intro o
  match o with
  | .error e => exact ⟨_, rfl⟩
  | .ok resp =>
      by_cases h : 400 ≤ resp.status
      · exact ⟨{ success := false, error := some (errText (.httpStatus resp.status)) },
          by simp [make_request, h]⟩
      · match hb : resp.body with
        | some j => exact ⟨j, by simp [make_request, h, hb]⟩
        | none => exact ⟨{ success := false, error := some "invalid JSON body" },
            by simp [make_request, h, hb]⟩

/- ===================================================================
   Refresh scheduling: `MainWindow.refresh_accounts` (lines 495-528) and
   `MainWindow.periodic_refresh` (lines 683-695), with the timers wired in
   `setup_ui`: `refresh_timer` every `auto_refresh_interval` (default
   300 s → 300000 ms, line 120), the startup one-shot
   `QTimer.singleShot(5000, self.refresh_accounts)` (line 45).
   =================================================================== -/

/-- The `MainWindow` state that `refresh_accounts` and `periodic_refresh`
read and write: `backend_connected` and `health_check_failures` (the same
attributes the health checker uses). -/
structure RefState where
  connected : Bool
  failures : Nat
deriving DecidableEq, Repr

/-- Outcome of the `self.api_client.get_accounts()` call as classified by
`refresh_accounts`: success; a non-success response flagged as rate-limited
(`rate_limited` set, or '429' / 'Too Many Requests' in the error text); a
non-success response whose error contains 'connection failed'; any other
non-success response; or an exception from the call. -/
inductive RefreshResp
  | ok
  | rateLimited
  | connFailed
  | otherError
  | exn
deriving DecidableEq, Repr

/-- `MainWindow.refresh_accounts` (lines 495-528) as a state transformer
that also returns the delays (ms) of the `QTimer.singleShot(...,
self.refresh_accounts)` retries it schedules.  Success: status connected,
failures reset, nothing scheduled.  Rate-limited: schedule one retry in
600000 ms and return with no state change.  'connection failed': mark
disconnected, increment failures, nothing scheduled.  Other error: no state
change.  Exception: mark disconnected, increment failures, schedule a retry
in `min(900000, 30000 * 2 ** min(failures, 4))` ms. -/
def refresh_accounts (s : RefState) (r : RefreshResp) : RefState × List Nat :=
  match r with
  | .ok => ({ connected := true, failures := 0 }, [])
  | .rateLimited => (s, [600000])
  | .connFailed => ({ connected := false, failures := s.failures + 1 }, [])
  | .otherError => (s, [])
  | .exn =>
      let f := s.failures + 1
      ({ connected := false, failures := f }, [min 900000 (30000 * 2 ^ min f 4)])

/-- `services/api_client.py` defines no `is_rate_limited` method on
`APIClient`, so the `hasattr(self.api_client, 'is_rate_limited')` guard in
`periodic_refresh` is always false. -/
def api_client_has_is_rate_limited : Bool := false

/-- `MainWindow.periodic_refresh` (lines 683-695): on a refresh-timer tick,
if the backend is connected with zero failures it schedules
`refresh_accounts` after a 10000 ms one-shot (the `hasattr` guard for a
client-side rate-limit check never fires, see
`api_client_has_is_rate_limited`); otherwise it does nothing.  The returned
list holds the delays of the one-shots it schedules. -/
def periodic_refresh (s : RefState) : List Nat :=
  if s.connected = true ∧ s.failures = 0 then
    if api_client_has_is_rate_limited then [] else [10000]
  else []

/-- A discrete-event state for the refresh subsystem: current time,
`MainWindow` refresh state, the absolute firing times of pending
`refresh_accounts` one-shots, the scripted `get_accounts` outcomes (consumed
in order), and the log of times at which `refresh_accounts` actually ran. -/
structure SimState where
  time : Nat
  refState : RefState
  pending : List Nat
  script : List RefreshResp
  execLog : List Nat
deriving DecidableEq, Repr

/-- Simulation clock granularity (ms); every timer value in play is a
multiple of it. -/
def SIM_DT : Nat := 5000

/-- `refresh_timer` period: `config.get("auto_refresh_interval", 300) * 1000`
(main_window.py line 120), at the default configuration. -/
def REFRESH_TIMER_MS : Nat := 300000

/-- Run `refresh_accounts` now: consume the next scripted outcome, apply the
state update, log the execution, and turn the scheduled delays into pending
absolute times. -/
def fire_refresh (st : SimState) : SimState :=
  match st.script with
  | [] => st
  | r :: rest =>
      let p := refresh_accounts st.refState r
      { st with
        refState := p.1,
        script := rest,
        execLog := st.execLog ++ [st.time],
        pending := (st.pending.erase st.time) ++ p.2.map (st.time + ·) }

/-- Advance the clock by `SIM_DT`: fire a pending `refresh_accounts`
one-shot due now, then, on a refresh-timer tick, add whatever
`periodic_refresh` schedules. -/
def sim_step (st : SimState) : SimState :=
  let t := st.time + SIM_DT
  let st1 := { st with time := t }
  let st2 := if st1.pending.contains t then fire_refresh st1 else st1
  if t % REFRESH_TIMER_MS = 0 then
    { st2 with pending := st2.pending ++ (periodic_refresh st2.refState).map (t + ·) }
  else st2

/-- Startup: `backend_connected = False`, zero failures, the
`QTimer.singleShot(5000, self.refresh_accounts)` from `__init__` pending,
and a script in which the first refresh succeeds, the second is
rate-limited, and the third succeeds. -/
def sim_init : SimState :=
  { time := 0, refState := { connected := false, failures := 0 },
    pending := [5000], script := [.ok, .rateLimited, .ok], execLog := [] }

/-- The simulation after `n` clock steps. -/
def sim_run (n : Nat) : SimState := sim_step^[n] sim_init

set_option maxRecDepth 40000 in
/-- Claim C6 (counterexample): a refresh executed at t = 310000 ms and was
rate-limited, which schedules a retry at 310000 + 600000 = 910000 ms — but
the next refresh execution starts at t = 610000 ms, strictly inside the
600000 ms cooldown window, because the periodic refresh timer (tick at
600000 ms, one-shot 10000 ms later) is not suppressed by the rate limit.
The claim that no execution of the task starts inside the cooldown window
is false. -/
theorem C6_cooldown_counterexample :
    (sim_run 122).execLog = [5000, 310000, 610000] ∧
    (sim_run 62).script = [RefreshResp.ok] ∧
    310000 + 600000 = 910000 ∧ 610000 < 910000 := by
  refine ⟨by decide, by decide, by decide, by decide⟩

/-- Claim C6 (amended): a rate-limited refresh result schedules exactly one
extra `refresh_accounts` retry 600000 ms later (a single fixed constant, not
exponential backoff) and changes no state; but there is no cooldown field,
and `periodic_refresh` keeps scheduling refreshes whenever the backend is
connected with zero failures — so executions of the task can still start
inside the 600000 ms window, and the window is not execution-free. -/
theorem C6_cooldown_amended (s : RefState) :
    refresh_accounts s RefreshResp.rateLimited = (s, [600000]) ∧
    (s.connected = true → s.failures = 0 → periodic_refresh s = [10000]) := by
  refine ⟨rfl, fun hc hf => ?_⟩
  simp [periodic_refresh, hc, hf, api_client_has_is_rate_limited]

/-- Witness for `C6_cooldown_amended` at the concrete state
`{connected := true, failures := 0}`. -/
theorem C6_cooldown_amended_witness :
    refresh_accounts { connected := true, failures := 0 } RefreshResp.rateLimited
      = ({ connected := true, failures := 0 }, [600000]) ∧
    periodic_refresh { connected := true, failures := 0 } = [10000] :=
  ⟨(C6_cooldown_amended ⟨true, 0⟩).1, (C6_cooldown_amended ⟨true, 0⟩).2 rfl rfl⟩

/- ===================================================================
   Search: `SearchResults` (src/frontend/src/ui/search_results.py)

   Debounce wiring in `setup_ui` (lines 473-477): `search_timer` is a
   single-shot QTimer with interval 350 ms;
   `search_input.textChanged.connect(self.search_timer.start)` restarts it
   on EVERY text change, and its timeout calls `perform_search`.

   `perform_search` (lines 1064-1085) runs synchronously on the UI thread:
   it strips the input; for a non-empty query it calls
   `api_client.search_files(...)` and immediately applies the response
   (`update_results` on success, an overlay message otherwise); for an
   empty query it calls `refresh_my_drive` (the distinguished default
   "My Drive" view load, lines 1133-1183).  There is no request identifier
   anywhere: nothing tags requests, and nothing drops responses.
   =================================================================== -/

/-- Python's `str.strip()`. -/
def pyStrip (s : String) : String :=
  String.mk
    (((s.toList.dropWhile Char.isWhitespace).reverse.dropWhile Char.isWhitespace).reverse)

/-- Outcome of one `api_client.search_files(...)` call as `perform_search`
sees it: a success response carrying the file list (ids abstracted to `Nat`)
and the pagination page, a non-success response, or an exception. -/
inductive SearchResp
  | ok (files : List Nat) (page : Nat)
  | errResult
  | exn
deriving DecidableEq, Repr

/-- The visible search state: `current_files`, the page recorded in
`current_pagination`, and the overlay label (`none` when hidden). -/
structure SearchView where
  files : List Nat
  page : Nat
  overlay : Option String
deriving DecidableEq, Repr

/-- `SearchResults.update_results` (lines 556-587): store the files and
pagination, then show a "No results found" overlay for an empty list and
hide the overlay otherwise.  It takes no request identifier and
unconditionally overwrites the visible state. -/
def update_results (files : List Nat) (page : Nat) : SearchView :=
  { files := files, page := page,
    overlay := if files.isEmpty then some "No results found" else none }

/-- `SearchResults.load_my_drive_files` (lines 1149-1183): when the
`get_accounts` call succeeds with a nonempty account list, issue the
default-view search and apply a success response via `update_results`;
any failure leaves the visible state as it was (only console prints). -/
def load_my_drive_files (v : SearchView) (accountsOk : Bool) (r : SearchResp) : SearchView :=
  if accountsOk then
    match r with
    | .ok files page => update_results files page
    | .errResult => v
    | .exn => v
  else v

/-- `SearchResults.refresh_my_drive` (lines 1133-1147): reset pagination and
load the default My Drive view. -/
def refresh_my_drive (v : SearchView) (accountsOk : Bool) (r : SearchResp) : SearchView :=
  load_my_drive_files { v with page := 1 } accountsOk r

/-- `SearchResults.perform_search` (lines 1064-1085) as a state transformer:
the synchronous search call and the application of its response are one
atomic step.  Non-empty stripped query: apply the response —
`update_results` on success, overlay "Search failed" on a non-success
response, overlay an error message on an exception.  Empty query: the
distinguished default-view load (`refresh_my_drive`), not an empty-query
search. -/
def perform_search (v : SearchView) (text : String) (accountsOk : Bool)
    (r : SearchResp) : SearchView :=
  if pyStrip text ≠ "" then
    match r with
    | .ok files page => update_results files page
    | .errResult => { v with overlay := some "Search failed" }
    | .exn => { v with overlay := some "Error: exception" }
  else
    refresh_my_drive v accountsOk r

/-- A sequential search session: each issued search completes and has its
response applied before the next one is issued (all calls are synchronous on
the UI thread, so this is the only order the code can produce). -/
def run_search_session (v : SearchView) (steps : List (String × SearchResp)) : SearchView :=
  steps.foldl (fun w p => perform_search w p.1 true p.2) v

/-- Claim C3 (counterexample): the code has no request identifier and drops
no response — `perform_search` applies whatever response its call returns,
unconditionally.  Starting from a view already showing the newer request's
results (files `[2]`), applying the older request's response (files `[1]`)
mutates the visible state and replaces the newer results, so the visible
state afterwards is NOT the newer request's results: the claimed
drop-without-mutation behaviour is absent. -/
theorem C3_stale_response_counterexample :
    (perform_search (update_results [2] 1) "a" true (SearchResp.ok [1] 1)).files = [1] ∧
    (update_results [2] 1).files = [2] ∧
    perform_search (update_results [2] 1) "a" true (SearchResp.ok [1] 1)
      ≠ update_results [2] 1 := by
  refine ⟨by decide, by decide, by decide⟩

/-- Claim C3 (amended): searches execute synchronously on the UI thread, so
at most one request is in flight and responses are applied in issue order;
after any sequential session whose last issued request is a non-empty query
answered successfully, the visible files are that last request's results
(last-request-wins holds by sequencing alone).  There is no `requestId`
mechanism: no response is ever dropped, and an older response applied after
a newer one's would overwrite it (see the counterexample). -/
theorem C3_last_request_wins_amended (v : SearchView)
    (steps : List (String × SearchResp)) (text : String) (files : List Nat) (page : Nat)
    (h : pyStrip text ≠ "") :
    (run_search_session v (steps ++ [(text, SearchResp.ok files page)])).files = files := by
  unfold run_search_session
  rw [List.foldl_append]
  simp [perform_search, h, update_results]

/-- Witness for `C3_last_request_wins_amended`: a two-request session where
the second request's results are the final visible state. -/
theorem C3_last_request_wins_amended_witness :
    (run_search_session { files := [], page := 1, overlay := none }
      ([("b", SearchResp.ok [2] 1)] ++ [("a", SearchResp.ok [1] 1)])).files = [1] :=
  C3_last_request_wins_amended { files := [], page := 1, overlay := none }
    [("b", SearchResp.ok [2] 1)] "a" [1] 1 (by decide)

/- ===================================================================
   Debounce pipeline for claim C9.
   =================================================================== -/

/-- `self.search_timer.setInterval(350)` (search_results.py line 474). -/
def DEBOUNCE_MS : Nat := 350

/-- The kind of request `perform_search` issues when the debounce timer
fires: a file search for a non-empty stripped query, or the distinguished
default My Drive view load for an empty one. -/
inductive ReqKind
  | search (q : String)
  | defaultView
deriving DecidableEq, Repr

/-- Which request `perform_search` issues for a given input text (the
`if query:` branch of lines 1064-1085). -/
def perform_search_request (text : String) : ReqKind :=
  if pyStrip text ≠ "" then .search (pyStrip text) else .defaultView

/-- The debounce pipeline: the single-shot `search_timer` as an optional
pending `(fireAt, text)` pair, driven by a time-ordered list of
`textChanged` events.  Every event — empty or not — restarts the timer at
`t + 350` (`textChanged.connect(self.search_timer.start)`), cancelling any
pending firing that would have come later; a pending timer whose deadline
precedes the next event fires `perform_search` first.  The output is the
list of `(time, request)` pairs actually issued. -/
def run_debounce : Option (Nat × String) → List (Nat × String) → List (Nat × ReqKind)
  | none, [] => []
  | some p, [] => [(p.1, perform_search_request p.2)]
  | none, (t, s) :: rest => run_debounce (some (t + DEBOUNCE_MS, s)) rest
  | some p, (t, s) :: rest =>
      if p.1 ≤ t then
        (p.1, perform_search_request p.2) :: run_debounce (some (t + DEBOUNCE_MS, s)) rest
      else
        run_debounce (some (t + DEBOUNCE_MS, s)) rest

/-- A fresh input session starting with no pending timer. -/
def search_input_session (events : List (Nat × String)) : List (Nat × ReqKind) :=
  run_debounce none events

/-- Claim C9 (counterexample): clearing the input to the empty string does
not issue anything immediately: like every other text change it restarts the
350 ms debounce timer, and the default-view request fires only at t + 350
(here 350 ≠ 0, the immediate firing the claim asserts). -/
theorem C9_empty_input_counterexample :
    search_input_session [(0, "")] = [(350, ReqKind.defaultView)] ∧ (350 : Nat) ≠ 0 := by
  refine ⟨by decide, by decide⟩

/-- Claim C9 (amended): every input change — empty or non-empty — restarts
the 350 ms debounce timer, cancelling any pending firing; when the timer
fires, a non-empty stripped query issues a search and the empty string
issues the distinguished default-view load (not an empty-query search).
Concretely: a lone change at time `t` fires at `t + 350`; a change at `t`
followed by clearing the input at `t + 100` fires nothing at `t + 350` and
issues a single default-view request at `t + 450`; and a change "a" at `t`
followed by "ab" at `t + 100` issues the single search "ab" at `t + 450`. -/
theorem C9_debounce_amended (t : Nat) (s : String) :
    search_input_session [(t, s)] = [(t + 350, perform_search_request s)] ∧
    search_input_session [(t, s), (t + 100, "")] = [(t + 450, ReqKind.defaultView)] ∧
    search_input_session [(t, "a"), (t + 100, "ab")] = [(t + 450, ReqKind.search "ab")] := by
  have hlt : ¬ t + DEBOUNCE_MS ≤ t + 100 := by simp [DEBOUNCE_MS]
  refine ⟨rfl, ?_, ?_⟩
  · show run_debounce none [(t, s), (t + 100, "")] = [(t + 450, ReqKind.defaultView)]
    rw [run_debounce, run_debounce, if_neg hlt, run_debounce]
    show [(t + 100 + DEBOUNCE_MS, perform_search_request "")] = [(t + 450, ReqKind.defaultView)]
    have : perform_search_request "" = ReqKind.defaultView := by decide
    rw [this]
    simp [DEBOUNCE_MS]
  · show run_debounce none [(t, "a"), (t + 100, "ab")] = [(t + 450, ReqKind.search "ab")]
    rw [run_debounce, run_debounce, if_neg hlt, run_debounce]
    show [(t + 100 + DEBOUNCE_MS, perform_search_request "ab")]
      = [(t + 450, ReqKind.search "ab")]
    have : perform_search_request "ab" = ReqKind.search "ab" := by decide
    rw [this]
    simp [DEBOUNCE_MS]

/- ===================================================================
   Byte-size formatting, three textually identical copies:
     * `MainWindow.format_size`        (main_window.py, lines 546-557)
     * `SearchResults.format_size`     (search_results.py, lines 729-740)
     * `UploadDialog.format_file_size` (upload_dialog.py, lines 351-362)

   Each is:  if size_bytes == 0: return "0 B";
             while size_bytes >= 1024 and i < len(size_names) - 1:
                 size_bytes /= 1024.0; i += 1;
             return f"{size_bytes:.1f} {size_names[i]}".

   The float value after `i` exact divisions of the integer input `n` by
   1024 is the rational `n / 1024^i`, so the embedding carries `(n, i)`:
   the loop guard `size_bytes >= 1024` is `1024^(i+1) ≤ n`, and the
   Python `"%.1f"` rendering (nearest tenth, ties to even) is computed on
   `n * 10 / 1024^i` with exact integer arithmetic.
   =================================================================== -/

/-- `size_names = ["B", "KB", "MB", "GB", "TB"]`, identical in all three
functions. -/
def size_names : List String := ["B", "KB", "MB", "GB", "TB"]

/-- The `while size_bytes >= 1024 and i < len(size_names) - 1` loop: returns
the final unit index `i`.  The fuel is `len(size_names) - 1 = 4`, the
maximum number of iterations the `i <` guard allows, so running out of fuel
and failing the guard coincide. -/
def fmt_loop : Nat → Nat → Nat → Nat
  | 0, _, i => i
  | fuel + 1, n, i =>
      if 1024 ^ (i + 1) ≤ n ∧ i < size_names.length - 1 then fmt_loop fuel n (i + 1)
      else i

/-- Python's `f"{x:.1f}"` for the nonnegative value `x = n / 1024 ^ i`:
round `x * 10` to the nearest integer (ties to even) and print it with one
digit after the decimal point. -/
def fmt1 (n i : Nat) : String :=
  let d := 1024 ^ i
  let t0 := n * 10 / d
  let r := n * 10 % d
  let t := if 2 * r < d then t0
           else if d < 2 * r then t0 + 1
           else if t0 % 2 = 0 then t0 else t0 + 1
  toString (t / 10) ++ "." ++ toString (t % 10)

namespace MainWindow

/-- `MainWindow.format_size` (main_window.py lines 546-557). -/
def format_size (size_bytes : Nat) : String :=
  if size_bytes = 0 then "0 B"
  else
    let i := fmt_loop (size_names.length - 1) size_bytes 0
    fmt1 size_bytes i ++ " " ++ size_names.getD i "B"

end MainWindow

namespace SearchResults

/-- `SearchResults.format_size` (search_results.py lines 729-740), textually
identical to `MainWindow.format_size`. -/
def format_size (size_bytes : Nat) : String :=
  if size_bytes = 0 then "0 B"
  else
    let i := fmt_loop (size_names.length - 1) size_bytes 0
    fmt1 size_bytes i ++ " " ++ size_names.getD i "B"

end SearchResults

namespace UploadDialog

/-- `UploadDialog.format_file_size` (upload_dialog.py lines 351-362),
textually identical to `MainWindow.format_size`. -/
def format_file_size (size_bytes : Nat) : String :=
  if size_bytes = 0 then "0 B"
  else
    let i := fmt_loop (size_names.length - 1) size_bytes 0
    fmt1 size_bytes i ++ " " ++ size_names.getD i "B"

end UploadDialog

lemma fmt_loop_bounds :
    ∀ (fuel n i : Nat), i ≤ 4 → 4 ≤ i + fuel →
      fmt_loop fuel n i ≤ 4 ∧
      (fmt_loop fuel n i < 4 → n < 1024 ^ (fmt_loop fuel n i + 1)) := by
  intro fuel
  induction fuel with
  | zero =>
      intro n i h1 h2
      have hi : i = 4 := by omega
      subst hi
      simp only [fmt_loop]
      exact ⟨le_refl _, by omega⟩
  | succ fuel ih =>
      intro n i h1 h2
      by_cases h : 1024 ^ (i + 1) ≤ n ∧ i < size_names.length - 1
      · have hi : i < 4 := by simpa [size_names] using h.2
        have hrw : fmt_loop (fuel + 1) n i = fmt_loop fuel n (i + 1) := by
          simp only [fmt_loop, if_pos h]
        rw [hrw]
        exact ih n (i + 1) (by omega) (by omega)
      · have hrw : fmt_loop (fuel + 1) n i = i := by
          simp only [fmt_loop, if_neg h]
        rw [hrw]
        refine ⟨h1, fun hlt => ?_⟩
        have hn2 : ¬ 1024 ^ (i + 1) ≤ n := by
          intro hle
          refine h ⟨hle, ?_⟩
          simp [size_names]
          omega
        omega

/-- Claim C10: the three byte-size formatters are extensionally equal, map 0
to `"0 B"`, and for every nonzero input pick a unit index within the list
`["B", "KB", "MB", "GB", "TB"]` such that the scaled value
`n / 1024 ^ i` is below 1024 whenever the unit is not TB (the last one); the
rendered string is that value to one decimal place followed by the unit. -/
theorem C10_format_size_equivalent :
    (∀ n : Nat, MainWindow.format_size n = SearchResults.format_size n) ∧
    (∀ n : Nat, MainWindow.format_size n = UploadDialog.format_file_size n) ∧
    MainWindow.format_size 0 = "0 B" ∧
    (∀ n : Nat, n ≠ 0 →
      fmt_loop (size_names.length - 1) n 0 < size_names.length ∧
      (fmt_loop (size_names.length - 1) n 0 < size_names.length - 1 →
        n < 1024 ^ (fmt_loop (size_names.length - 1) n 0 + 1)) ∧
      MainWindow.format_size n
        = fmt1 n (fmt_loop (size_names.length - 1) n 0) ++ " "
            ++ size_names.getD (fmt_loop (size_names.length - 1) n 0) "B") := by
  refine ⟨fun n => rfl, fun n => rfl, rfl, fun n hn => ?_⟩
  obtain ⟨hb, hv⟩ := fmt_loop_bounds (size_names.length - 1) n 0 (by norm_num) (by simp [size_names])
  refine ⟨by simpa [size_names] using Nat.lt_succ_of_le hb, ?_, ?_⟩
  · intro hlt
    exact hv (by simpa [size_names] using hlt)
  · simp [MainWindow.format_size, hn]

/-- Witness for `C10_format_size_equivalent` at the concrete inputs 1536 and
0: all three functions agree on 1536 (the value "1.5 KB"), 0 maps to "0 B",
and for 1536 the unit index is 1 (KB) with 1536 < 1024². -/
theorem C10_format_size_equivalent_witness :
    MainWindow.format_size 1536 = SearchResults.format_size 1536 ∧
    MainWindow.format_size 1536 = UploadDialog.format_file_size 1536 ∧
    MainWindow.format_size 0 = "0 B" ∧
    fmt_loop (size_names.length - 1) 1536 0 < size_names.length ∧
    MainWindow.format_size 1536 = "1.5 KB" :=
  ⟨C10_format_size_equivalent.1 1536,
   C10_format_size_equivalent.2.1 1536,
   C10_format_size_equivalent.2.2.1,
   (C10_format_size_equivalent.2.2.2 1536 (by decide)).1,
   by decide⟩
